import Mathlib

/-!
Verification of the psrqpy parameter registry (`psrqpy/config.py`) and of the
condition-evaluation engine specified for it.

The registry part is embedded directly from the source: each partition
(`PSR_GENERAL`, `PSR_TIMING`, `PSR_BINARY`, `PSR_DERIVED`) is a Python dict
literal, modelled as an association list passed through `dictOfPairs`, which
reproduces Python dict construction semantics (first occurrence fixes the
position of a key, a later duplicate overwrites the value).  `PSR_ALL` is
`dict(itertools.chain(...))` over the four partitions and `PSR_ALL_PARS` is the
concatenation of the four key lists, exactly as in the source.

The condition-evaluation engine (lookup, condition construction, evaluation)
exists only in the specification, so it is modelled from the spec; each such
definition carries a doc comment saying so.
-/

/-- Metadata for one queryable parameter, from the per-parameter dictionaries in
`config.py`: `ref` is true when the parameter can carry an associated
reference, `err` when it can carry an associated error value, and `units`
is the optional unit string. -/
structure ParameterSpec where
  ref : Bool
  err : Bool
  units : Option String
  deriving DecidableEq, Repr

/-- Insertion of one key-value pair with Python dict semantics: an existing key
keeps its position and gets the new value, a new key is appended. -/
def dictInsert {β : Type} (d : List (String × β)) (k : String) (v : β) :
    List (String × β) :=
  if d.any (fun p => p.1 == k) then
    d.map (fun p => if p.1 == k then (k, v) else p)
  else d ++ [(k, v)]

/-- Python dict built from a sequence of key-value pairs, left to right. -/
def dictOfPairs {β : Type} (ps : List (String × β)) : List (String × β) :=
  ps.foldl (fun d p => dictInsert d p.1 p.2) []

/-- Dictionary lookup: the value stored at the first (and, for a dict, only)
occurrence of the key. -/
def lookupEntry {β : Type} (d : List (String × β)) (n : String) : Option β :=
  (d.find? (fun p => p.1 == n)).map Prod.snd

/-- The key-value pairs of the `PSR_GENERAL` dict literal, in source order. -/
def psrGeneralEntries : List (String × ParameterSpec) :=
  [("NAME", ⟨true, false, none⟩),
   ("JNAME", ⟨true, false, none⟩),
   ("BNAME", ⟨true, false, none⟩),
   ("PSRJ", ⟨true, false, none⟩),
   ("PSRB", ⟨true, false, none⟩),
   ("RAJ", ⟨true, true, none⟩),
   ("DECJ", ⟨true, true, none⟩),
   ("PMRA", ⟨true, true, some "mas/yr"⟩),
   ("PMDEC", ⟨true, true, some "mas/yr"⟩),
   ("PX", ⟨true, true, some "mas"⟩),
   ("POSEPOCH", ⟨true, false, some "d"⟩),
   ("ELONG", ⟨true, true, some "deg"⟩),
   ("ELAT", ⟨true, true, some "deg"⟩),
   ("PMELONG", ⟨true, true, some "mas/yr"⟩),
   ("PMELAT", ⟨true, true, some "mas/yr"⟩),
   ("GL", ⟨false, false, some "deg"⟩),
   ("GB", ⟨false, false, some "deg"⟩),
   ("RAJD", ⟨false, false, some "deg"⟩),
   ("DECJD", ⟨false, false, some "deg"⟩),
   ("TYPE", ⟨false, false, none⟩),
   ("PML", ⟨false, false, some "mas/yr"⟩),
   ("PMB", ⟨false, false, some "mas/yr"⟩),
   ("DIST", ⟨false, false, some "kpc"⟩),
   ("DIST_DM", ⟨true, false, some "kpc"⟩),
   ("DIST_DM1", ⟨true, false, some "kpc"⟩),
   ("DIST1", ⟨false, false, some "kpc"⟩),
   ("DIST_AMN", ⟨true, true, some "kpc"⟩),
   ("DIST_AMX", ⟨true, false, some "kpc"⟩),
   ("DIST_A", ⟨true, true, some "kpc"⟩),
   ("DMSINB", ⟨false, false, some "cm^-3 pc"⟩),
   ("ZZ", ⟨false, false, some "kpc"⟩),
   ("XX", ⟨false, false, some "kpc"⟩),
   ("YY", ⟨false, false, some "kpc"⟩),
   ("ASSOC", ⟨false, false, none⟩),
   ("SURVEY", ⟨false, false, none⟩),
   ("OSURVEY", ⟨false, false, none⟩),
   ("DATE", ⟨false, false, some "yr"⟩),
   ("NGLT", ⟨false, false, none⟩),
   ("GLEP", ⟨false, false, some "d"⟩),
   ("GLPH", ⟨false, false, none⟩),
   ("GLF0", ⟨false, false, some "Hz"⟩),
   ("GLF1", ⟨false, false, some "Hz/s"⟩),
   ("GLF0D", ⟨false, false, some "Hz"⟩),
   ("GLTD", ⟨false, false, some "d"⟩),
   ("CLK", ⟨true, false, none⟩),
   ("EPHEM", ⟨true, false, none⟩)]

/-- The key-value pairs of the `PSR_TIMING` dict literal, in source order. -/
def psrTimingEntries : List (String × ParameterSpec) :=
  [("P0", ⟨true, true, some "s"⟩),
   ("P1", ⟨true, true, none⟩),
   ("F0", ⟨true, true, some "Hz"⟩),
   ("F1", ⟨true, true, some "s^-2"⟩),
   ("F2", ⟨true, true, some "s^-3"⟩),
   ("F3", ⟨true, true, some "s^-4"⟩),
   ("F4", ⟨true, true, some "s^-5"⟩),
   ("F5", ⟨true, true, some "s^-6"⟩),
   ("F6", ⟨false, false, some "s^-7"⟩),
   ("F7", ⟨false, false, some "s^-8"⟩),
   ("F8", ⟨false, false, some "s^-9"⟩),
   ("F9", ⟨false, false, some "s^-10"⟩),
   ("PEPOCH", ⟨true, false, some "d"⟩),
   ("DM", ⟨true, true, some "cm^-3 pc"⟩),
   ("DM1", ⟨true, true, some "cm^-3 pc/yr"⟩),
   ("DMEPOCH", ⟨true, false, some "d"⟩),
   ("DM2", ⟨true, true, some "cm^-3 pc yr^-2"⟩),
   ("DM3", ⟨true, true, some "cm^-3 pc yr^-3"⟩),
   ("DM4", ⟨false, false, some "cm^-3 pc yr^-4"⟩),
   ("DM5", ⟨false, false, some "cm^-3 pc yr^-5"⟩),
   ("DM6", ⟨false, false, some "cm^-3 pc yr^-6"⟩),
   ("DM7", ⟨false, false, some "cm^-3 pc yr^-7"⟩),
   ("DM8", ⟨false, false, some "cm^-3 pc yr^-8"⟩),
   ("DM9", ⟨false, false, some "cm^-3 pc yr^-9"⟩),
   ("RM", ⟨true, true, some "rad m^-2"⟩),
   ("W50", ⟨true, true, some "ms"⟩),
   ("W10", ⟨true, true, some "ms"⟩),
   ("UNITS", ⟨true, false, none⟩),
   ("TAU_SC", ⟨true, true, some "s"⟩),
   ("SI414", ⟨false, false, none⟩),
   ("S400", ⟨true, true, some "mJy"⟩),
   ("S1400", ⟨true, true, some "mJy"⟩),
   ("S2000", ⟨true, true, some "mJy"⟩),
   ("S30", ⟨false, false, some "mJy"⟩),
   ("S40", ⟨true, true, some "mJy"⟩),
   ("S50", ⟨true, true, some "mJy"⟩),
   ("S60", ⟨true, true, some "mJy"⟩),
   ("S80", ⟨true, true, some "mJy"⟩),
   ("S100", ⟨true, true, some "mJy"⟩),
   ("S150", ⟨true, true, some "mJy"⟩),
   ("S200", ⟨true, true, some "mJy"⟩),
   ("S300", ⟨true, true, some "mJy"⟩),
   ("S600", ⟨true, true, some "mJy"⟩),
   ("S700", ⟨true, true, some "mJy"⟩),
   ("S800", ⟨true, true, some "mJy"⟩),
   ("S900", ⟨true, true, some "mJy"⟩),
   ("S1600", ⟨true, true, some "mJy"⟩),
   ("S3000", ⟨true, true, some "mJy"⟩),
   ("S4000", ⟨true, false, some "mJy"⟩),
   ("S5000", ⟨true, true, some "mJy"⟩),
   ("S6000", ⟨true, true, some "mJy"⟩),
   ("S8000", ⟨true, true, some "mJy"⟩),
   ("S10G", ⟨false, false, some "mJy"⟩),
   ("S20G", ⟨false, false, some "mJy"⟩),
   ("S50G", ⟨false, false, some "mJy"⟩),
   ("S100G", ⟨true, true, some "mJy"⟩),
   ("S150G", ⟨true, true, some "mJy"⟩),
   ("SPINDX", ⟨true, true, none⟩)]

/-- The key-value pairs of the `PSR_BINARY` dict literal, in source order. -/
def psrBinaryEntries : List (String × ParameterSpec) :=
  [("BINARY", ⟨true, false, none⟩),
   ("T0", ⟨true, true, some "d"⟩),
   ("PB", ⟨true, true, some "d"⟩),
   ("A1", ⟨true, true, some "s"⟩),
   ("OM", ⟨true, true, some "deg"⟩),
   ("ECC", ⟨true, true, none⟩),
   ("TASC", ⟨true, true, some "d"⟩),
   ("EPS1", ⟨true, true, none⟩),
   ("EPS2", ⟨true, true, none⟩),
   ("MINMASS", ⟨false, false, some "M_sun"⟩),
   ("MEDMASS", ⟨false, false, some "M_sun"⟩),
   ("BINCOMP", ⟨true, false, none⟩),
   ("FB0", ⟨true, true, some "Hz"⟩),
   ("FB1", ⟨true, true, some "Hz s^-1"⟩),
   ("FB2", ⟨true, true, some "Hz s^-2"⟩),
   ("OMDOT", ⟨true, true, some "deg/yr"⟩),
   ("OM2DOT", ⟨true, true, some "deg/yr^2"⟩),
   ("A1DOT", ⟨true, true, some "s s^-1"⟩),
   ("A12DOT", ⟨true, true, some "s s^-2"⟩),
   ("ECCDOT", ⟨true, true, some "s^-1"⟩),
   ("ECC2DOT", ⟨false, false, some "s^-2"⟩),
   ("PBDOT", ⟨true, true, none⟩),
   ("GAMMA", ⟨true, true, some "s"⟩),
   ("T0_2", ⟨true, true, some "d"⟩),
   ("PB_2", ⟨true, true, some "d"⟩),
   ("A1_2", ⟨true, true, some "s"⟩),
   ("OM_2", ⟨true, true, some "deg"⟩),
   ("ECC_2", ⟨true, true, none⟩),
   ("OMDOT_2", ⟨false, false, some "deg/yr"⟩),
   ("PBDOT_2", ⟨false, false, none⟩),
   ("EPS1_2", ⟨true, true, none⟩),
   ("EPS2_2", ⟨true, true, none⟩),
   ("TASC_2", ⟨true, true, some "d"⟩),
   ("T0_3", ⟨true, true, some "d"⟩),
   ("PB_3", ⟨true, true, some "d"⟩),
   ("A1_3", ⟨true, true, some "s"⟩),
   ("OM_3", ⟨true, true, some "deg"⟩),
   ("ECC_3", ⟨true, true, none⟩),
   ("OMDOT_3", ⟨false, false, some "deg/yr"⟩),
   ("PBDOT_3", ⟨false, false, none⟩),
   ("PPNGAMMA", ⟨false, false, some "s"⟩),
   ("SINI", ⟨true, true, none⟩),
   ("SINI_2", ⟨true, true, none⟩),
   ("SINI_3", ⟨true, true, none⟩),
   ("XPBDOT", ⟨false, false, none⟩),
   ("KOM", ⟨true, true, some "deg"⟩),
   ("KIN", ⟨true, true, some "deg"⟩),
   ("M2", ⟨true, true, some "M_sun"⟩),
   ("M2_2", ⟨true, true, some "M_sun"⟩),
   ("M2_3", ⟨true, true, some "M_sun"⟩),
   ("MASS_Q", ⟨true, true, none⟩),
   ("MASS_Q_2", ⟨false, false, none⟩),
   ("OM_ASC", ⟨true, true, some "deg"⟩),
   ("OM_ASC_2", ⟨false, false, some "deg"⟩),
   ("DTHETA", ⟨true, true, some "1e-6"⟩),
   ("XOMDOT", ⟨false, false, some "deg/yr"⟩),
   ("H3", ⟨true, true, some "s"⟩),
   ("H4", ⟨true, true, some "s"⟩),
   ("STIG", ⟨true, true, none⟩),
   ("MASSFN", ⟨false, false, some "M_sun"⟩),
   ("UPRMASS", ⟨false, false, some "M_sun"⟩),
   ("MINOMDOT", ⟨false, false, some "deg/yr"⟩)]

/-- The key-value pairs of the `PSR_DERIVED` dict literal, in source order. -/
def psrDerivedEntries : List (String × ParameterSpec) :=
  [("R_LUM", ⟨false, false, some "mJy kpc^2"⟩),
   ("R_LUM14", ⟨false, false, some "mJy kpc^2"⟩),
   ("AGE", ⟨false, false, some "yr"⟩),
   ("BSURF", ⟨false, false, some "G"⟩),
   ("EDOT", ⟨false, false, some "erg/s"⟩),
   ("EDOTD2", ⟨false, false, some "erg s^-1/kpc^2"⟩),
   ("PMTOT", ⟨false, false, some "mas/yr"⟩),
   ("VTRANS", ⟨false, false, some "km/s"⟩),
   ("P1_I", ⟨false, false, none⟩),
   ("AGE_I", ⟨false, false, some "yr"⟩),
   ("BSURF_I", ⟨false, false, some "G"⟩),
   ("B_LC", ⟨false, false, some "G"⟩)]

/-- General and astrometric parameters (the `PSR_GENERAL` dict). -/
def PSR_GENERAL : List (String × ParameterSpec) := dictOfPairs psrGeneralEntries

/-- Timing solution and profile parameters (the `PSR_TIMING` dict). -/
def PSR_TIMING : List (String × ParameterSpec) := dictOfPairs psrTimingEntries

/-- Binary system parameters (the `PSR_BINARY` dict). -/
def PSR_BINARY : List (String × ParameterSpec) := dictOfPairs psrBinaryEntries

/-- Derived parameters (the `PSR_DERIVED` dict). -/
def PSR_DERIVED : List (String × ParameterSpec) := dictOfPairs psrDerivedEntries

/-- The parameter names of `PSR_GENERAL`, as `list(PSR_GENERAL.keys())`. -/
def PSR_GENERAL_PARS : List String := PSR_GENERAL.map Prod.fst

/-- The parameter names of `PSR_TIMING`, as `list(PSR_TIMING.keys())`. -/
def PSR_TIMING_PARS : List String := PSR_TIMING.map Prod.fst

/-- The parameter names of `PSR_BINARY`, as `list(PSR_BINARY.keys())`. -/
def PSR_BINARY_PARS : List String := PSR_BINARY.map Prod.fst

/-- The parameter names of `PSR_DERIVED`, as `list(PSR_DERIVED.keys())`. -/
def PSR_DERIVED_PARS : List String := PSR_DERIVED.map Prod.fst

/-- The merged registry: `dict(itertools.chain(PSR_GENERAL.items(),
PSR_TIMING.items(), PSR_BINARY.items(), PSR_DERIVED.items()))`. -/
def PSR_ALL : List (String × ParameterSpec) :=
  dictOfPairs (PSR_GENERAL ++ PSR_TIMING ++ PSR_BINARY ++ PSR_DERIVED)

/-- The full ordered parameter-name list:
`PSR_GENERAL_PARS + PSR_TIMING_PARS + PSR_BINARY_PARS + PSR_DERIVED_PARS`. -/
def PSR_ALL_PARS : List String :=
  PSR_GENERAL_PARS ++ PSR_TIMING_PARS ++ PSR_BINARY_PARS ++ PSR_DERIVED_PARS

/-- Allowed pulsar type codes (the `PSR_TYPE` list). -/
def PSR_TYPE : List String :=
  ["AXP", "BINARY", "HE", "NRAD", "RADIO", "RRAT", "XINS"]

/-- Allowed binary companion type codes (the `PSR_BINARY_TYPE` list). -/
def PSR_BINARY_TYPE : List String := ["MS", "NS", "CO", "He", "UL"]

/-- Allowed association codes (the `PSR_ASSOC_TYPE` list). -/
def PSR_ASSOC_TYPE : List String := ["GC", "SNR"]

/-- A raw value in a catalogue record slot: numeric or string. -/
inductive Value where
  | num (q : ℚ)
  | str (s : String)
  deriving DecidableEq, Repr

/-- One value slot of a Record: the value with its optional error and optional
reference, as in the spec's `{value, error?, reference?}`. -/
structure Slot where
  value : Value
  error : Option ℚ := none
  reference : Option String := none
  deriving DecidableEq, Repr

/-- A catalogue Record: a mapping from parameter name to a value slot; a
parameter absent from the record means not measured for this object. -/
abbrev Record : Type := List (String × Slot)

/-- Lookup of a parameter slot in a record. -/
def recLookup (r : Record) (n : String) : Option Slot := lookupEntry r n

/-- Predicate kinds of a Condition. -/
inductive CondKind where
  | present
  | equals
  | oneOf
  | range
  deriving DecidableEq, Repr

/-- Operand of a Condition: a literal, a set of literals, or a numeric interval
whose bounds are each optional. -/
inductive Operand where
  | lit (v : Value)
  | tokens (vs : List Value)
  | interval (lo hi : Option ℚ)
  deriving DecidableEq, Repr

/-- One query predicate: a parameter name, a predicate kind and an operand. -/
structure Condition where
  parameter : String
  kind : CondKind
  operand : Operand
  deriving DecidableEq, Repr

/-- The construction-time error taxonomy of the engine. -/
inductive EngineError where
  | UnknownParameter
  | InvalidPredicateKind
  | InvalidToken
  | UnitMismatch
  deriving DecidableEq, Repr

/-- Modelled from the spec: the engine itself is absent from the source tree,
only the registry is.  `lookup(name) -> ParameterSpec` fails with
`UnknownParameter` if `name` is not in the flat namespace (case-sensitive,
exact match on the fixed uppercase mnemonic names). -/
def lookup (n : String) : Except EngineError ParameterSpec :=
  match lookupEntry PSR_ALL n with
  | some s => Except.ok s
  | none => Except.error EngineError.UnknownParameter

/-- Closed vocabulary attached to a categorical field, when there is one:
`TYPE` uses `PSR_TYPE`, `BINCOMP` uses `PSR_BINARY_TYPE`, `ASSOC` uses
`PSR_ASSOC_TYPE`. -/
def vocabularyOf (n : String) : Option (List String) :=
  if n = "TYPE" then some PSR_TYPE
  else if n = "BINCOMP" then some PSR_BINARY_TYPE
  else if n = "ASSOC" then some PSR_ASSOC_TYPE
  else none

/-- The tokens carried by an operand, for vocabulary validation. -/
def operandTokens : Operand → List Value
  | Operand.lit v => [v]
  | Operand.tokens vs => vs
  | Operand.interval _ _ => []

/-- Modelled from the spec: the engine is absent from the source tree.
`make_condition(parameter, kind, operand)` fails with `UnknownParameter` when
the parameter is not in the registry, with `InvalidPredicateKind` when a
`range` predicate is applied to a closed-vocabulary (categorical) field, and
with `InvalidToken` when an operand on a closed-vocabulary field holds a token
outside that vocabulary; on success it returns the immutable Condition. -/
def make_condition (parameter : String) (kind : CondKind) (operand : Operand) :
    Except EngineError Condition :=
  match lookupEntry PSR_ALL parameter with
  | none => Except.error EngineError.UnknownParameter
  | some _ =>
    match vocabularyOf parameter with
    | none => Except.ok ⟨parameter, kind, operand⟩
    | some voc =>
      match kind with
      | CondKind.range => Except.error EngineError.InvalidPredicateKind
      | _ =>
        if (operandTokens operand).all (fun v =>
            match v with
            | Value.str s => voc.contains s
            | Value.num _ => false) then
          Except.ok ⟨parameter, kind, operand⟩
        else Except.error EngineError.InvalidToken

/-- Whether a rational lies in an interval with optional bounds; an absent
bound is unbounded on that side. -/
def matchesInterval (lo hi : Option ℚ) (q : ℚ) : Bool :=
  (match lo with
   | none => true
   | some l => decide (l ≤ q)) &&
  (match hi with
   | none => true
   | some h => decide (q ≤ h))

/-- Modelled from the spec: the engine is absent from the source tree.
Evaluation of one validated Condition against one Record: a record lacking the
parameter never matches any predicate kind; `present` checks a slot exists,
`equals` compares the value with the literal, `one-of` is membership of the
value in the operand set, `range` checks a numeric value against the interval
bounds.  A non-numeric value under `range` is a malformed record and resolves
to no match, never to an error. -/
def evalCond (c : Condition) (r : Record) : Bool :=
  match recLookup r c.parameter with
  | none => false
  | some slot =>
    match c.kind, c.operand with
    | CondKind.present, _ => true
    | CondKind.equals, Operand.lit v => slot.value == v
    | CondKind.oneOf, Operand.tokens vs => vs.contains slot.value
    | CondKind.range, Operand.interval lo hi =>
      match slot.value with
      | Value.num q => matchesInterval lo hi q
      | Value.str _ => false
    | _, _ => false

/-- Modelled from the spec: the engine is absent from the source tree.
`evaluate(conditions, records)` keeps, in their original order, exactly the
records that satisfy every condition (logical AND across conditions). -/
def evaluate (conds : List Condition) (records : List Record) : List Record :=
  records.filter (fun r => conds.all (fun c => evalCond c r))

theorem any_key_eq_false {β : Type} {d : List (String × β)} {k : String}
    (h : k ∉ d.map Prod.fst) : d.any (fun p => p.1 == k) = false := by
  simp only [List.any_eq_false, beq_iff_eq]
  intro p hp hpk
  exact h (by rw [← hpk]; exact List.mem_map_of_mem Prod.fst hp)

theorem dictInsert_of_not_mem {β : Type} {d : List (String × β)} {k : String} {v : β}
    (h : k ∉ d.map Prod.fst) : dictInsert d k v = d ++ [(k, v)] := by
  unfold dictInsert
  rw [any_key_eq_false h]
  simp

theorem foldl_dictInsert_eq {β : Type} :
    ∀ (l acc : List (String × β)), ((acc ++ l).map Prod.fst).Nodup →
      l.foldl (fun d p => dictInsert d p.1 p.2) acc = acc ++ l := by
  intro l
  induction l with
  | nil => intro acc _; simp
  | cons p ps ih =>
    intro acc h
    have hk : p.1 ∉ acc.map Prod.fst := by
      intro hmem
      rw [List.map_append, List.nodup_append] at h
      exact h.2.2 hmem (by simp)
    have h2 : dictInsert acc p.1 p.2 = acc ++ [p] := by
      rw [dictInsert_of_not_mem hk]
    rw [List.foldl_cons, h2, ih (acc ++ [p]) (by simpa using h)]
    simp

theorem dictOfPairs_eq_self {β : Type} {l : List (String × β)}
    (h : (l.map Prod.fst).Nodup) : dictOfPairs l = l := by
  unfold dictOfPairs
  simpa using foldl_dictInsert_eq l [] (by simpa using h)

theorem generalKeysNodup : (psrGeneralEntries.map Prod.fst).Nodup := by decide

theorem timingKeysNodup : (psrTimingEntries.map Prod.fst).Nodup := by decide

theorem binaryKeysNodup : (psrBinaryEntries.map Prod.fst).Nodup := by decide

theorem derivedKeysNodup : (psrDerivedEntries.map Prod.fst).Nodup := by decide

set_option maxRecDepth 4000 in
theorem allKeysNodup :
    ((psrGeneralEntries ++ psrTimingEntries ++ psrBinaryEntries ++
      psrDerivedEntries).map Prod.fst).Nodup := by
  decide

theorem PSR_GENERAL_eq : PSR_GENERAL = psrGeneralEntries :=
  dictOfPairs_eq_self generalKeysNodup

theorem PSR_TIMING_eq : PSR_TIMING = psrTimingEntries :=
  dictOfPairs_eq_self timingKeysNodup

theorem PSR_BINARY_eq : PSR_BINARY = psrBinaryEntries :=
  dictOfPairs_eq_self binaryKeysNodup

theorem PSR_DERIVED_eq : PSR_DERIVED = psrDerivedEntries :=
  dictOfPairs_eq_self derivedKeysNodup

theorem PSR_ALL_entries_eq :
    PSR_ALL = psrGeneralEntries ++ psrTimingEntries ++ psrBinaryEntries ++
      psrDerivedEntries := by
  unfold PSR_ALL
  rw [PSR_GENERAL_eq, PSR_TIMING_eq, PSR_BINARY_eq, PSR_DERIVED_eq]
  exact dictOfPairs_eq_self allKeysNodup

theorem PSR_ALL_eq :
    PSR_ALL = PSR_GENERAL ++ PSR_TIMING ++ PSR_BINARY ++ PSR_DERIVED := by
  rw [PSR_ALL_entries_eq, PSR_GENERAL_eq, PSR_TIMING_eq, PSR_BINARY_eq,
    PSR_DERIVED_eq]

theorem PSR_ALL_PARS_eq_map : PSR_ALL_PARS = PSR_ALL.map Prod.fst := by
  rw [PSR_ALL_eq]
  unfold PSR_ALL_PARS PSR_GENERAL_PARS PSR_TIMING_PARS PSR_BINARY_PARS
    PSR_DERIVED_PARS
  simp [List.map_append]

theorem lookupEntry_eq_none {β : Type} {d : List (String × β)} {n : String} :
    lookupEntry d n = none ↔ n ∉ d.map Prod.fst := by
  unfold lookupEntry
  rw [Option.map_eq_none', List.find?_eq_none]
  constructor
  · intro h hmem
    obtain ⟨p, hp, hpn⟩ := List.mem_map.mp hmem
    exact h p hp (by simp [hpn])
  · intro h p hp
    simp only [beq_iff_eq]
    intro hpn
    exact h (by rw [← hpn]; exact List.mem_map_of_mem Prod.fst hp)

theorem lookupEntry_some_mem {β : Type} {d : List (String × β)} {n : String}
    {s : β} (h : lookupEntry d n = some s) : (n, s) ∈ d := by
  unfold lookupEntry at h
  obtain ⟨p, hp, hps⟩ := Option.map_eq_some'.mp h
  have h1 := List.find?_some hp
  have h2 := List.mem_of_find?_eq_some hp
  have hpe : p = (n, s) := by
    obtain ⟨a, b⟩ := p
    simp only [beq_iff_eq] at h1
    simp_all
  rwa [hpe] at h2

theorem lookupEntry_some_mem_keys {β : Type} {d : List (String × β)} {n : String}
    {s : β} (h : lookupEntry d n = some s) : n ∈ d.map Prod.fst :=
  List.mem_map_of_mem Prod.fst (lookupEntry_some_mem h)

theorem lookupEntry_append {β : Type} (a b : List (String × β)) (n : String) :
    lookupEntry (a ++ b) n = (lookupEntry a n).or (lookupEntry b n) := by
  unfold lookupEntry
  rw [List.find?_append]
  cases a.find? (fun p => p.1 == n) <;> simp

theorem lookupEntry_all_split (n : String) :
    lookupEntry PSR_ALL n =
      ((lookupEntry PSR_GENERAL n).or (lookupEntry PSR_TIMING n)).or
        ((lookupEntry PSR_BINARY n).or (lookupEntry PSR_DERIVED n)) := by
  rw [PSR_ALL_eq, lookupEntry_append, lookupEntry_append, lookupEntry_append]
  cases lookupEntry PSR_GENERAL n <;> cases lookupEntry PSR_TIMING n <;>
    cases lookupEntry PSR_BINARY n <;> simp

theorem partition_keys_disjoint :
    ((psrGeneralEntries.map Prod.fst).Disjoint (psrTimingEntries.map Prod.fst) ∧
     (psrGeneralEntries.map Prod.fst).Disjoint (psrBinaryEntries.map Prod.fst) ∧
     (psrGeneralEntries.map Prod.fst).Disjoint (psrDerivedEntries.map Prod.fst)) ∧
    ((psrTimingEntries.map Prod.fst).Disjoint (psrBinaryEntries.map Prod.fst) ∧
     (psrTimingEntries.map Prod.fst).Disjoint (psrDerivedEntries.map Prod.fst)) ∧
    (psrBinaryEntries.map Prod.fst).Disjoint (psrDerivedEntries.map Prod.fst) := by
  have h : ((psrGeneralEntries.map Prod.fst) ++
      ((psrTimingEntries.map Prod.fst) ++
        ((psrBinaryEntries.map Prod.fst) ++ (psrDerivedEntries.map Prod.fst)))).Nodup := by
    have h0 := allKeysNodup
    simp only [List.map_append] at h0
    simpa [List.append_assoc] using h0
  rw [List.nodup_append] at h
  obtain ⟨-, h2, h3⟩ := h
  rw [List.nodup_append] at h2
  obtain ⟨-, h4, h5⟩ := h2
  rw [List.nodup_append] at h4
  obtain ⟨-, -, h6⟩ := h4
  rw [List.disjoint_append_right] at h3 h5
  obtain ⟨d1, h3⟩ := h3
  rw [List.disjoint_append_right] at h3
  exact ⟨⟨d1, h3.1, h3.2⟩, ⟨h5.1, h5.2⟩, h6⟩

/-- C2: every name in any of the four partition tables is mapped by the merged
flat namespace PSR_ALL to the same metadata triple as in the partition, and
PSR_ALL holds no name that is absent from all four partitions. -/
theorem registry_merge_preserves_partitions :
    (∀ n s, lookupEntry PSR_GENERAL n = some s → lookupEntry PSR_ALL n = some s) ∧
    (∀ n s, lookupEntry PSR_TIMING n = some s → lookupEntry PSR_ALL n = some s) ∧
    (∀ n s, lookupEntry PSR_BINARY n = some s → lookupEntry PSR_ALL n = some s) ∧
    (∀ n s, lookupEntry PSR_DERIVED n = some s → lookupEntry PSR_ALL n = some s) ∧
    (∀ n, lookupEntry PSR_ALL n ≠ none →
      lookupEntry PSR_GENERAL n ≠ none ∨ lookupEntry PSR_TIMING n ≠ none ∨
        lookupEntry PSR_BINARY n ≠ none ∨ lookupEntry PSR_DERIVED n ≠ none) := by
  obtain ⟨⟨dGT, dGB, dGD⟩, ⟨dTB, dTD⟩, dBD⟩ := partition_keys_disjoint
  refine ⟨?_, ?_, ?_, ?_, ?_⟩
  · intro n s h
    rw [lookupEntry_all_split, h]
    simp
  · intro n s h
    have hkT : n ∈ psrTimingEntries.map Prod.fst := by
      have := lookupEntry_some_mem_keys h
      rwa [PSR_TIMING_eq] at this
    have hG : lookupEntry PSR_GENERAL n = none := by
      rw [lookupEntry_eq_none, PSR_GENERAL_eq]
      exact fun hm => dGT hm hkT
    rw [lookupEntry_all_split, hG, h]
    simp
  · intro n s h
    have hkB : n ∈ psrBinaryEntries.map Prod.fst := by
      have := lookupEntry_some_mem_keys h
      rwa [PSR_BINARY_eq] at this
    have hG : lookupEntry PSR_GENERAL n = none := by
      rw [lookupEntry_eq_none, PSR_GENERAL_eq]
      exact fun hm => dGB hm hkB
    have hT : lookupEntry PSR_TIMING n = none := by
      rw [lookupEntry_eq_none, PSR_TIMING_eq]
      exact fun hm => dTB hm hkB
    rw [lookupEntry_all_split, hG, hT, h]
    simp
  · intro n s h
    have hkD : n ∈ psrDerivedEntries.map Prod.fst := by
      have := lookupEntry_some_mem_keys h
      rwa [PSR_DERIVED_eq] at this
    have hG : lookupEntry PSR_GENERAL n = none := by
      rw [lookupEntry_eq_none, PSR_GENERAL_eq]
      exact fun hm => dGD hm hkD
    have hT : lookupEntry PSR_TIMING n = none := by
      rw [lookupEntry_eq_none, PSR_TIMING_eq]
      exact fun hm => dTD hm hkD
    have hB : lookupEntry PSR_BINARY n = none := by
      rw [lookupEntry_eq_none, PSR_BINARY_eq]
      exact fun hm => dBD hm hkD
    rw [lookupEntry_all_split, hG, hT, hB, h]
    simp
  · intro n h
    by_contra hc
    push_neg at hc
    apply h
    rw [lookupEntry_all_split, Option.or_eq_none, Option.or_eq_none,
      Option.or_eq_none]
    exact ⟨⟨hc.1, hc.2.1⟩, hc.2.2.1, hc.2.2.2⟩

set_option maxRecDepth 4000 in
/-- Witness for C2 at the concrete parameter F0, whose timing-partition entry
is carried unchanged into PSR_ALL. -/
theorem registry_merge_preserves_partitions_witness :
    lookupEntry PSR_ALL "F0" = some ⟨true, true, some "Hz"⟩ :=
  registry_merge_preserves_partitions.2.1 "F0" ⟨true, true, some "Hz"⟩
    (by rw [PSR_TIMING_eq]; decide)

/-- C1: parameter names are unique across the four registry partitions: the
ordered name list PSR_ALL_PARS has no duplicate names, and the merged registry
PSR_ALL has exactly as many entries as the four partitions together. -/
theorem registry_names_unique :
    PSR_ALL_PARS.Nodup ∧
    PSR_ALL.length =
      PSR_GENERAL.length + PSR_TIMING.length + PSR_BINARY.length +
        PSR_DERIVED.length ∧
    PSR_ALL_PARS.length = PSR_ALL.length := by
  refine ⟨?_, ?_, ?_⟩
  · rw [PSR_ALL_PARS_eq_map, PSR_ALL_entries_eq]
    exact allKeysNodup
  · rw [PSR_ALL_eq]
    simp [List.length_append]
    omega
  · rw [PSR_ALL_PARS_eq_map, List.length_map]

/-- C4: PSR_ALL_PARS is the concatenation of the general, timing, binary and
derived partition name lists in that order, which is also the key insertion
order of the merged registry PSR_ALL. -/
theorem all_names_order :
    PSR_ALL_PARS =
      PSR_GENERAL_PARS ++ PSR_TIMING_PARS ++ PSR_BINARY_PARS ++
        PSR_DERIVED_PARS ∧
    PSR_ALL_PARS = PSR_ALL.map Prod.fst :=
  ⟨rfl, PSR_ALL_PARS_eq_map⟩

theorem mem_pars_iff_lookup (n : String) :
    n ∈ PSR_ALL_PARS ↔ lookupEntry PSR_ALL n ≠ none := by
  rw [PSR_ALL_PARS_eq_map]
  constructor
  · intro h hn
    exact (lookupEntry_eq_none.mp hn) h
  · intro h
    by_contra hm
    exact h (lookupEntry_eq_none.mpr hm)

/-- C3: lookup and make_condition fail with UnknownParameter on every name
outside the flat registry namespace; the match is case-sensitive and exact
(lowercase f0 is rejected while F0 succeeds); every registered name is looked
up successfully and returns its ParameterSpec. -/
theorem lookup_fails_unknown_parameter :
    (∀ n, n ∉ PSR_ALL_PARS →
      lookup n = Except.error EngineError.UnknownParameter) ∧
    (∀ n (k : CondKind) (op : Operand), n ∉ PSR_ALL_PARS →
      make_condition n k op = Except.error EngineError.UnknownParameter) ∧
    (∀ n s, lookupEntry PSR_ALL n = some s → lookup n = Except.ok s) ∧
    (∀ n, n ∈ PSR_ALL_PARS → ∃ s, lookup n = Except.ok s) ∧
    lookup "f0" = Except.error EngineError.UnknownParameter ∧
    lookup "F0" = Except.ok ⟨true, true, some "Hz"⟩ := by
  have hlook : ∀ n s, lookupEntry PSR_ALL n = some s → lookup n = Except.ok s := by
    intro n s h
    unfold lookup
    rw [h]
  refine ⟨?_, ?_, hlook, ?_, ?_, ?_⟩
  · intro n h
    have hn : lookupEntry PSR_ALL n = none := by
      rw [lookupEntry_eq_none, ← PSR_ALL_PARS_eq_map]
      exact h
    unfold lookup
    rw [hn]
  · intro n k op h
    have hn : lookupEntry PSR_ALL n = none := by
      rw [lookupEntry_eq_none, ← PSR_ALL_PARS_eq_map]
      exact h
    unfold make_condition
    rw [hn]
  · intro n h
    have hn := (mem_pars_iff_lookup n).mp h
    cases hs : lookupEntry PSR_ALL n with
    | none => exact absurd hs hn
    | some s => exact ⟨s, hlook n s hs⟩
  · have hn : lookupEntry PSR_ALL "f0" = none := by
      rw [PSR_ALL_entries_eq]
      decide
    unfold lookup
    rw [hn]
  · exact hlook "F0" ⟨true, true, some "Hz"⟩ (by rw [PSR_ALL_entries_eq]; decide)

set_option maxRecDepth 4000 in
/-- Witness for C3: BOGUS is rejected by lookup and by make_condition with
UnknownParameter, while the registered name F0 is looked up successfully. -/
theorem lookup_fails_unknown_parameter_witness :
    lookup "BOGUS" = Except.error EngineError.UnknownParameter ∧
    make_condition "BOGUS" CondKind.equals (Operand.lit (Value.str "x")) =
      Except.error EngineError.UnknownParameter ∧
    (∃ s, lookup "F0" = Except.ok s) :=
  ⟨lookup_fails_unknown_parameter.1 "BOGUS" (by decide),
   lookup_fails_unknown_parameter.2.1 "BOGUS" CondKind.equals
     (Operand.lit (Value.str "x")) (by decide),
   lookup_fails_unknown_parameter.2.2.2.1 "F0" (by decide)⟩

set_option maxRecDepth 4000 in
theorem registry_err_entries :
    ∀ p ∈ psrGeneralEntries ++ psrTimingEntries ++ psrBinaryEntries ++
      psrDerivedEntries, p.2.err = true → p.2.ref = true := by
  decide

/-- C10: every registry parameter whose metadata allows an associated error
value (err true) also allows an associated literature reference (ref true). -/
theorem err_implies_ref :
    ∀ n s, lookupEntry PSR_ALL n = some s → s.err = true → s.ref = true := by
  intro n s h he
  have hmem : (n, s) ∈ psrGeneralEntries ++ psrTimingEntries ++
      psrBinaryEntries ++ psrDerivedEntries := by
    have := lookupEntry_some_mem h
    rwa [PSR_ALL_entries_eq] at this
  exact registry_err_entries (n, s) hmem he

/-- Witness for C10 at the concrete parameter RAJ, which supports an error and
indeed also supports a reference. -/
theorem err_implies_ref_witness :
    (⟨true, true, (none : Option String)⟩ : ParameterSpec).ref = true :=
  err_implies_ref "RAJ" ⟨true, true, none⟩
    (by rw [PSR_ALL_entries_eq]; decide) rfl

/-- C5: the registry entry for F0 supports a reference and an error and has
unit Hz, and the range condition (F0, range, [1, 10]) matches a record with F0
value 5, rejects one with F0 value 15, and rejects one where F0 is absent. -/
theorem f0_spec_and_range_condition :
    lookupEntry PSR_ALL "F0" = some ⟨true, true, some "Hz"⟩ ∧
    evalCond ⟨"F0", CondKind.range, Operand.interval (some 1) (some 10)⟩
      [("F0", ⟨Value.num 5, none, none⟩)] = true ∧
    evalCond ⟨"F0", CondKind.range, Operand.interval (some 1) (some 10)⟩
      [("F0", ⟨Value.num 15, none, none⟩)] = false ∧
    evalCond ⟨"F0", CondKind.range, Operand.interval (some 1) (some 10)⟩
      ([] : Record) = false := by
  refine ⟨?_, by decide, by decide, by decide⟩
  rw [PSR_ALL_entries_eq]
  decide

/-- C6: RADIO, XINS and AXP are all members of the emission-type vocabulary,
and the one-of condition on TYPE with operand set containing RADIO and XINS
matches records whose TYPE is RADIO or XINS and rejects a record whose TYPE is
AXP. -/
theorem type_vocabulary_one_of :
    ("RADIO" ∈ PSR_TYPE ∧ "XINS" ∈ PSR_TYPE ∧ "AXP" ∈ PSR_TYPE) ∧
    evalCond ⟨"TYPE", CondKind.oneOf,
        Operand.tokens [Value.str "RADIO", Value.str "XINS"]⟩
      [("TYPE", ⟨Value.str "RADIO", none, none⟩)] = true ∧
    evalCond ⟨"TYPE", CondKind.oneOf,
        Operand.tokens [Value.str "RADIO", Value.str "XINS"]⟩
      [("TYPE", ⟨Value.str "XINS", none, none⟩)] = true ∧
    evalCond ⟨"TYPE", CondKind.oneOf,
        Operand.tokens [Value.str "RADIO", Value.str "XINS"]⟩
      [("TYPE", ⟨Value.str "AXP", none, none⟩)] = false := by
  decide

/-- C7: a record lacking a parameter never matches any condition on that
parameter, for every predicate kind; evaluation is total and yields false,
never an error and never a default match. -/
theorem absent_parameter_no_match :
    ∀ (r : Record) (c : Condition), recLookup r c.parameter = none →
      evalCond c r = false := by
  intro r c h
  unfold evalCond
  rw [h]

/-- Witness for C7: the empty record does not match a presence condition on
F0. -/
theorem absent_parameter_no_match_witness :
    evalCond ⟨"F0", CondKind.present, Operand.tokens []⟩ ([] : Record) = false :=
  absent_parameter_no_match [] ⟨"F0", CondKind.present, Operand.tokens []⟩ rfl

/-- C8: evaluate is idempotent: filtering an already filtered record sequence
by the same conditions yields the same sequence. -/
theorem evaluate_idempotent :
    ∀ (conds : List Condition) (records : List Record),
      evaluate conds (evaluate conds records) = evaluate conds records := by
  intro conds records
  unfold evaluate
  rw [List.filter_filter]
  simp

/-- C9: evaluate is an order-preserving stable filter: its output is a
sub-sequence of the input records in the same relative order, and a record
appears in the output exactly when it satisfies every condition. -/
theorem evaluate_order_preserving :
    ∀ (conds : List Condition) (records : List Record),
      List.Sublist (evaluate conds records) records ∧
      (∀ r, r ∈ evaluate conds records ↔
        r ∈ records ∧ ∀ c ∈ conds, evalCond c r = true) := by
  intro conds records
  refine ⟨List.filter_sublist records, ?_⟩
  intro r
  unfold evaluate
  rw [List.mem_filter]
  simp [List.all_eq_true]
